import Mathlib

/-
  Verification of the video-analysis pipeline implementation
  (video_processor.py, ai_analyzer.py, main.py and the frontend
  ProgressTerminal component) against its natural-language specification.

  The embedding models:
  * `extract_keyframes_scene_detection` from video_processor.py
    (scene-change detection over luminance histograms);
  * `process_video_async` and `upload_video` from main.py
    (the orchestration task and the upload endpoint);
  * the SSE reconnect logic of the ProgressTerminal frontend component.

  Machine floats are modelled by real numbers; Python `round(x, 2)` is
  modelled exactly (round half to even); OpenCV's DBL_EPSILON guards
  are modelled as exact zero tests.
-/

namespace VideoAnalyzer

/-- A decoded frame, represented by its single-channel luminance image:
the list of 8-bit grey values of its pixels (the result of
`cv2.cvtColor(frame, cv2.COLOR_BGR2GRAY)`, flattened; the histogram
computation below only depends on these values). -/
abbrev Gray := List (Fin 256)

/-- `cv2.calcHist([gray], [0], None, [256], [0, 256])`: for each of the
256 one-value-wide bins, the number of pixels with that luminance. -/
def calcHist (g : Gray) : Fin 256 → ℕ := fun i => g.count i

/-- The histogram as a float array (OpenCV returns float counts). -/
noncomputable def histFloat (g : Gray) : Fin 256 → ℝ := fun i => (calcHist g i : ℝ)

/-- `cv2.normalize(hist, hist)` with the default arguments
(`norm_type = NORM_L2`, `alpha = 1`): divide by the L2 norm; OpenCV
scales by `0` when the norm is (close to) zero. -/
noncomputable def normalizeL2 (h : Fin 256 → ℝ) : Fin 256 → ℝ :=
  let nrm := Real.sqrt (∑ i, h i ^ 2)
  if nrm = 0 then fun _ => 0 else fun i => h i / nrm

/-- `cv2.compareHist(a, b, cv2.HISTCMP_CORREL)`: Pearson correlation of
the two 256-bin histograms; OpenCV returns `1` when the denominator is
(close to) zero. -/
noncomputable def compareHistCorrel (a b : Fin 256 → ℝ) : ℝ :=
  let total : ℝ := 256
  let s1 := ∑ i, a i
  let s2 := ∑ i, b i
  let s11 := ∑ i, a i * a i
  let s22 := ∑ i, b i * b i
  let s12 := ∑ i, a i * b i
  let num := s12 - s1 * s2 / total
  let denom := (s11 - s1 * s1 / total) * (s22 - s2 * s2 / total)
  if denom = 0 then 1 else num / Real.sqrt denom

/-- The scene-change score of a frame against the previous frame, as in
`extract_keyframes_scene_detection`:
`(1 - compareHist(normalize(hist curr), normalize(hist prev))) * 100`. -/
noncomputable def sceneChangeScore (prev curr : Gray) : ℝ :=
  let hist_curr := normalizeL2 (histFloat curr)
  let hist_prev := normalizeL2 (histFloat prev)
  (1 - compareHistCorrel hist_curr hist_prev) * 100

/-- Python `round(x)` for reals: round half to even (banker's rounding). -/
noncomputable def pyRound (x : ℝ) : ℤ :=
  let f := ⌊x⌋
  if x - f < 1 / 2 then f
  else if x - f > 1 / 2 then f + 1
  else if Even f then f else f + 1

/-- Python `round(x, 2)`. -/
noncomputable def pyRound2 (x : ℝ) : ℝ := (pyRound (x * 100) : ℝ) / 100

/-- One entry of the list returned by `extract_keyframes_scene_detection`
(the dict also carries `path`, the file the frame image is written to,
which is determined by the position of the entry in the list; the frame
content itself is recoverable as `frames[frame_number]`). -/
structure KF where
  frame_number : ℕ
  timestamp : ℝ
  scene_change_score : ℝ

/-- The configuration parameters of `extract_keyframes_scene_detection`
(these are its only tuning parameters: the function accepts no minimum
interval between keyframes). -/
structure EngineConfig where
  threshold : ℝ := 25
  max_frames : ℕ := 10

open Classical in
/-- The `while True` read loop of `extract_keyframes_scene_detection`,
as structural recursion over the decoded frame sequence: state is
`(remaining frames, prev_frame, frame_count, keyframe_count, keyframes)`. -/
noncomputable def extractLoop (cfg : EngineConfig) (fps : ℝ) :
    List Gray → Option Gray → ℕ → ℕ → List KF → List KF
  | [], _, _, _, keyframes => keyframes
  | gray :: rest, prev_frame, frame_count, keyframe_count, keyframes =>
    match prev_frame with
    | none =>
        extractLoop cfg fps rest (some gray) (frame_count + 1) keyframe_count keyframes
    | some prev =>
        let scene_change := sceneChangeScore prev gray
        if scene_change > cfg.threshold ∧ keyframe_count < cfg.max_frames then
          extractLoop cfg fps rest (some gray) (frame_count + 1) (keyframe_count + 1)
            (keyframes ++ [{ frame_number := frame_count,
                             timestamp := pyRound2 ((frame_count : ℝ) / fps),
                             scene_change_score := pyRound2 scene_change }])
        else
          extractLoop cfg fps rest (some gray) (frame_count + 1) keyframe_count keyframes

/-- `VideoProcessor.extract_keyframes_scene_detection(output_dir,
threshold, max_frames)`: scans the decoded frames of the capture
(`fps` comes from the capture) and returns the accepted keyframes. -/
noncomputable def extract_keyframes_scene_detection (cfg : EngineConfig) (fps : ℝ)
    (frames : List Gray) : List KF :=
  extractLoop cfg fps frames none 0 0 []

/-! ### Basic loop lemmas -/

theorem extractLoop_length_le (cfg : EngineConfig) (fps : ℝ) :
    ∀ (frames : List Gray) (prev : Option Gray) (fc kc : ℕ) (acc : List KF),
      (extractLoop cfg fps frames prev fc kc acc).length ≤
        acc.length + (cfg.max_frames - kc) := by
  intro frames
  induction frames with
  | nil => intro prev fc kc acc; simp [extractLoop]
  | cons g rest ih =>
    intro prev fc kc acc
    cases prev with
    | none => exact ih (some g) (fc + 1) kc acc
    | some p =>
      simp only [extractLoop]
      by_cases hcond : sceneChangeScore p g > cfg.threshold ∧ kc < cfg.max_frames
      · rw [if_pos hcond]
        have h := ih (some g) (fc + 1) (kc + 1)
          (acc ++ [{ frame_number := fc,
                     timestamp := pyRound2 ((fc : ℝ) / fps),
                     scene_change_score := pyRound2 (sceneChangeScore p g) }])
        simp at h ⊢
        omega
      · rw [if_neg hcond]
        exact ih (some g) (fc + 1) kc acc

/-! ### Histogram correlation facts -/

theorem compareHistCorrel_self (a : Fin 256 → ℝ) : compareHistCorrel a a = 1 := by
  simp only [compareHistCorrel]
  set s1 := ∑ i, a i with hs1
  set s11 := ∑ i, a i * a i with hs11
  have hV : 0 ≤ s11 - s1 * s1 / 256 := by
    have hcs := Finset.sum_mul_sq_le_sq_mul_sq Finset.univ a (fun _ => 1)
    simp only [mul_one, one_pow, Finset.sum_const, Finset.card_univ,
      Fintype.card_fin, nsmul_eq_mul, Nat.cast_ofNat] at hcs
    have hs : s1 * s1 ≤ s11 * 256 := by
      have h1 : s1 * s1 = s1 ^ 2 := by ring
      have h2 : s11 = ∑ i, a i ^ 2 := by
        rw [hs11]; exact Finset.sum_congr rfl fun i _ => by ring
      rw [h1, h2]; exact hcs
    linarith
  by_cases hV0 : s11 - s1 * s1 / 256 = 0
  · rw [if_pos (by rw [hV0]; ring)]
  · rw [if_neg (mul_ne_zero hV0 hV0)]
    rw [Real.sqrt_mul_self hV]
    exact div_self hV0

theorem sceneChangeScore_eq_hist {p g : Gray} (h : calcHist p = calcHist g) :
    sceneChangeScore p g = 0 := by
  have h2 : histFloat p = histFloat g := by
    funext i
    simp only [histFloat]
    rw [h]
  simp only [sceneChangeScore, h2, compareHistCorrel_self, sub_self, zero_mul]

/-- The luminance histogram of a one-pixel frame is the indicator of its value. -/
theorem calcHist_singleton (v : Fin 256) :
    calcHist [v] = fun i => if i = v then 1 else 0 := by
  funext i
  simp only [calcHist, List.count_singleton]
  by_cases h : i = v
  · subst h; simp
  · simp [h, Ne.symm h]

theorem histFloat_singleton (v : Fin 256) :
    histFloat [v] = fun i => if i = v then (1 : ℝ) else 0 := by
  funext i
  simp only [histFloat, calcHist_singleton]
  split <;> simp

theorem sum_indicator_one (v : Fin 256) :
    (∑ i, (if i = v then (1 : ℝ) else 0)) = 1 := by
  rw [Finset.sum_ite_eq' Finset.univ v (fun _ => (1 : ℝ))]
  simp

theorem sum_indicator_sq_one (v : Fin 256) :
    (∑ i, (if i = v then (1 : ℝ) else 0) ^ 2) = 1 := by
  have h : ∀ i : Fin 256, (if i = v then (1 : ℝ) else 0) ^ 2
      = if i = v then (1 : ℝ) else 0 := by
    intro i; split <;> norm_num
  rw [Finset.sum_congr rfl fun i _ => h i, sum_indicator_one]

theorem sum_indicator_mul_self (v : Fin 256) :
    (∑ i, (if i = v then (1 : ℝ) else 0) * (if i = v then (1 : ℝ) else 0)) = 1 := by
  have h : ∀ i : Fin 256, (if i = v then (1 : ℝ) else 0) * (if i = v then (1 : ℝ) else 0)
      = if i = v then (1 : ℝ) else 0 := by
    intro i; split <;> norm_num
  rw [Finset.sum_congr rfl fun i _ => h i, sum_indicator_one]

theorem sum_indicator_mul_ne {v w : Fin 256} (hvw : v ≠ w) :
    (∑ i, (if i = v then (1 : ℝ) else 0) * (if i = w then (1 : ℝ) else 0)) = 0 := by
  refine Finset.sum_eq_zero fun i _ => ?_
  by_cases h1 : i = v
  · by_cases h2 : i = w
    · exact absurd (h1 ▸ h2) hvw
    · simp [h1, h2, hvw]
  · simp [h1]

theorem normalizeL2_indicator (v : Fin 256) :
    normalizeL2 (fun i => if i = v then (1 : ℝ) else 0)
      = fun i => if i = v then (1 : ℝ) else 0 := by
  simp only [normalizeL2, sum_indicator_sq_one, Real.sqrt_one]
  rw [if_neg one_ne_zero]
  funext i
  simp

theorem compareHistCorrel_indicator_ne {v w : Fin 256} (hvw : v ≠ w) :
    compareHistCorrel (fun i => if i = v then (1 : ℝ) else 0)
      (fun i => if i = w then (1 : ℝ) else 0) = -(1 / 255) := by
  simp only [compareHistCorrel, sum_indicator_one, sum_indicator_mul_self,
    sum_indicator_mul_ne hvw]
  rw [if_neg (by norm_num)]
  have h : (1 - 1 * 1 / 256 : ℝ) * (1 - 1 * 1 / 256) = (255 / 256) ^ 2 := by norm_num
  rw [h, Real.sqrt_sq (by norm_num : (0:ℝ) ≤ 255 / 256)]
  norm_num

/-- The scene-change score between one-pixel frames of distinct values:
`(1 - (-(1/255))) * 100 = 5120 / 51` (about `100.39`). -/
theorem sceneChangeScore_single_ne {v w : Fin 256} (hvw : v ≠ w) :
    sceneChangeScore [v] [w] = 5120 / 51 := by
  simp only [sceneChangeScore, histFloat_singleton, normalizeL2_indicator,
    compareHistCorrel_indicator_ne (Ne.symm hvw)]
  norm_num

/-! ### Loop evaluation lemmas -/

theorem extractLoop_replicate_same (cfg : EngineConfig) (fps : ℝ)
    (hthr : 0 ≤ cfg.threshold) (g : Gray) :
    ∀ (n : ℕ) (rest : List Gray) (fc kc : ℕ) (acc : List KF),
      extractLoop cfg fps (List.replicate n g ++ rest) (some g) fc kc acc
        = extractLoop cfg fps rest (some g) (fc + n) kc acc := by
  intro n
  induction n with
  | zero => intro rest fc kc acc; simp
  | succ n ih =>
    intro rest fc kc acc
    rw [List.replicate_succ, List.cons_append]
    simp only [extractLoop]
    rw [if_neg]
    · rw [ih rest (fc + 1) kc acc]
      congr 1
      omega
    · rintro ⟨hgt, -⟩
      rw [sceneChangeScore_eq_hist rfl] at hgt
      exact absurd hthr (not_le.mpr hgt)

/-! ### Python rounding facts -/

theorem pyRound_intCast (n : ℤ) : pyRound (n : ℝ) = n := by
  simp only [pyRound, Int.floor_intCast, sub_self]
  rw [if_pos (by norm_num)]

theorem pyRound2_natCast (n : ℕ) : pyRound2 (n : ℝ) = n := by
  have h : ((n : ℝ) * 100) = ((n * 100 : ℤ) : ℝ) := by push_cast; ring
  rw [pyRound2, h, pyRound_intCast]
  push_cast
  field_simp

theorem pyRound2_one : pyRound2 (1 : ℝ) = 1 := by
  have h := pyRound2_natCast 1; norm_num at h; exact h

theorem pyRound2_two : pyRound2 (2 : ℝ) = 2 := by
  have h := pyRound2_natCast 2; norm_num at h; exact h

theorem pyRound2_three : pyRound2 (3 : ℝ) = 3 := by
  have h := pyRound2_natCast 3; norm_num at h; exact h

theorem pyRound2_sixty : pyRound2 (60 : ℝ) = 60 := by
  have h := pyRound2_natCast 60; norm_num at h; exact h

/-- `round(5120/51, 2) = 100.39`: the rounded scene-change score of two
one-pixel frames with distinct values. -/
theorem pyRound2_score : pyRound2 (5120 / 51 : ℝ) = 10039 / 100 := by
  have h1 : (5120 / 51 : ℝ) * 100 = 512000 / 51 := by norm_num
  have hfloor : ⌊(512000 / 51 : ℝ)⌋ = 10039 := by
    rw [Int.floor_eq_iff]
    constructor <;> norm_num
  rw [pyRound2, h1, pyRound, hfloor]
  rw [if_pos (by norm_num)]
  norm_num

/-! ### Single-step loop rewriting -/

theorem extractLoop_nil (cfg : EngineConfig) (fps : ℝ) (prev : Option Gray)
    (fc kc : ℕ) (acc : List KF) :
    extractLoop cfg fps [] prev fc kc acc = acc := by
  simp only [extractLoop]

theorem extractLoop_cons_none (cfg : EngineConfig) (fps : ℝ) (g : Gray)
    (rest : List Gray) (fc kc : ℕ) (acc : List KF) :
    extractLoop cfg fps (g :: rest) none fc kc acc
      = extractLoop cfg fps rest (some g) (fc + 1) kc acc := by
  simp only [extractLoop]

theorem extractLoop_cons_accept (cfg : EngineConfig) (fps : ℝ) {p g : Gray}
    (rest : List Gray) (fc kc : ℕ) (acc : List KF)
    (hs : sceneChangeScore p g > cfg.threshold) (hk : kc < cfg.max_frames) :
    extractLoop cfg fps (g :: rest) (some p) fc kc acc
      = extractLoop cfg fps rest (some g) (fc + 1) (kc + 1)
          (acc ++ [{ frame_number := fc,
                     timestamp := pyRound2 ((fc : ℝ) / fps),
                     scene_change_score := pyRound2 (sceneChangeScore p g) }]) := by
  simp only [extractLoop]
  rw [if_pos ⟨hs, hk⟩]

/-! ### Concrete scenario runs -/

/-- The engine, with the configuration `process_video_async` uses
(`threshold=25.0`, `max_frames=10`), on four alternating one-pixel
frames at 1 fps: the three frames after the first are all accepted
(each consecutive pair scores about `100.39 > 25`), at timestamps
1 s, 2 s and 3 s. -/
theorem scenario_alternating (a b : Fin 256) (hab : a ≠ b) :
    extract_keyframes_scene_detection ⟨25, 10⟩ 1 [[a], [b], [a], [b]]
      = [⟨1, 1, 10039 / 100⟩, ⟨2, 2, 10039 / 100⟩, ⟨3, 3, 10039 / 100⟩] := by
  have hab' : sceneChangeScore [a] [b] = 5120 / 51 := sceneChangeScore_single_ne hab
  have hba : sceneChangeScore [b] [a] = 5120 / 51 := sceneChangeScore_single_ne (Ne.symm hab)
  have hgt : (5120 / 51 : ℝ) > 25 := by norm_num
  unfold extract_keyframes_scene_detection
  rw [extractLoop_cons_none]
  rw [extractLoop_cons_accept _ _ _ _ _ _ (by rw [hab']; exact hgt) (by norm_num)]
  rw [extractLoop_cons_accept _ _ _ _ _ _ (by rw [hba]; exact hgt) (by norm_num)]
  rw [extractLoop_cons_accept _ _ _ _ _ _ (by rw [hab']; exact hgt) (by norm_num)]
  rw [extractLoop_nil]
  simp only [hab', hba, pyRound2_score, List.nil_append, List.append_assoc,
    List.singleton_append, List.cons_append, List.nil_append]
  norm_num [pyRound2_one, pyRound2_two, pyRound2_three]

/-- The engine on a 118-frame, 1 fps sequence made of two static
one-pixel scenes: 60 frames of one value then 58 frames of another.
Only the first frame of the second scene is accepted: one keyframe,
frame 60, timestamp 60 s. The first frame of the video is never a
candidate (there is no previous frame to compare against). -/
theorem scenario_two_scenes (a b : Fin 256) (hab : a ≠ b) :
    extract_keyframes_scene_detection ⟨25, 10⟩ 1
        (List.replicate 60 [a] ++ List.replicate 58 [b])
      = [⟨60, 60, 10039 / 100⟩] := by
  have hba : sceneChangeScore [a] [b] = 5120 / 51 := sceneChangeScore_single_ne hab
  have hthr : (0 : ℝ) ≤ (⟨25, 10⟩ : EngineConfig).threshold := by norm_num
  unfold extract_keyframes_scene_detection
  rw [show List.replicate 60 ([a] : Gray) = [a] :: List.replicate 59 [a] from rfl,
    List.cons_append, extractLoop_cons_none]
  rw [show List.replicate 59 ([a] : Gray) ++ List.replicate 58 [b]
        = List.replicate 59 [a] ++ List.replicate 58 [b] from rfl]
  rw [extractLoop_replicate_same _ _ hthr _ 59]
  rw [show List.replicate 58 ([b] : Gray) = [b] :: List.replicate 57 [b] from rfl]
  rw [extractLoop_cons_accept _ _ _ _ _ _ (by rw [hba]; norm_num) (by norm_num)]
  rw [show List.replicate 57 ([b] : Gray) = List.replicate 57 [b] ++ [] from
    (List.append_nil _).symm]
  rw [extractLoop_replicate_same _ _ hthr _ 57]
  rw [extractLoop_nil]
  simp only [hba, pyRound2_score, List.nil_append]
  norm_num [pyRound2_sixty]

/-! ### Spec-level acceptance characterization -/

open Classical in
/-- Modelled from the spec's acceptance sentence (as amended by the
code): given the `(frameIndex, sceneChangeScore)` pairs of the frames
after the first, in order, keep an index exactly when its score exceeds
`threshold` and the number of already-kept indices is below
`max_frames`. -/
noncomputable def specKeep (cfg : EngineConfig) : List (ℕ × ℝ) → ℕ → List ℕ
  | [], _ => []
  | (i, s) :: rest, cnt =>
    if s > cfg.threshold ∧ cnt < cfg.max_frames then
      i :: specKeep cfg rest (cnt + 1)
    else
      specKeep cfg rest cnt

/-- The `(frameIndex, sceneChangeScore)` pairs of a frame sequence:
each frame after the first, scored against its immediate predecessor. -/
noncomputable def pairScores : Gray → List Gray → ℕ → List (ℕ × ℝ)
  | _, [], _ => []
  | p, g :: rest, i => (i, sceneChangeScore p g) :: pairScores g rest (i + 1)

/-- The indices the spec-level acceptance rule keeps. -/
noncomputable def specAcceptedFrames (cfg : EngineConfig) : List Gray → List ℕ
  | [] => []
  | f :: rest => specKeep cfg (pairScores f rest 1) 0

theorem extractLoop_map_specKeep (cfg : EngineConfig) (fps : ℝ) :
    ∀ (frames : List Gray) (p : Gray) (fc kc : ℕ) (acc : List KF),
      (extractLoop cfg fps frames (some p) fc kc acc).map KF.frame_number
        = acc.map KF.frame_number ++ specKeep cfg (pairScores p frames fc) kc := by
  intro frames
  induction frames with
  | nil => intro p fc kc acc; rw [extractLoop_nil]; simp [pairScores, specKeep]
  | cons g rest ih =>
    intro p fc kc acc
    simp only [extractLoop, pairScores, specKeep]
    by_cases hcond : sceneChangeScore p g > cfg.threshold ∧ kc < cfg.max_frames
    · rw [if_pos hcond, if_pos hcond, ih]
      simp
    · rw [if_neg hcond, if_neg hcond, ih]

/-- Claim C1 (amended): a frame is accepted as a keyframe exactly when
its scene-change score against the immediately preceding frame exceeds
`threshold` and the count of already-accepted keyframes is below
`max_frames`; the first frame is never a candidate, and there is no
minimum-interval condition (the engine takes no `minIntervalSeconds`
parameter). -/
theorem c1_acceptance_characterization (cfg : EngineConfig) (fps : ℝ)
    (frames : List Gray) :
    (extract_keyframes_scene_detection cfg fps frames).map KF.frame_number
      = specAcceptedFrames cfg frames := by
  cases frames with
  | nil =>
    unfold extract_keyframes_scene_detection
    rw [extractLoop_nil]
    simp [specAcceptedFrames]
  | cons f rest =>
    unfold extract_keyframes_scene_detection
    rw [extractLoop_cons_none, extractLoop_map_specKeep]
    simp [specAcceptedFrames]

/-- Claim C1 counterexample: with the claim's configuration
(`threshold = 25`, `maxFrames = 10`, `minIntervalSeconds = 2`) the
engine accepts keyframes at 1 s, 2 s and 3 s — consecutive accepted
keyframes only 1 s apart. The claimed minimum-interval conjunct would
forbid this; the code has no such condition. -/
theorem c1_counterexample :
    ¬ List.Chain' (fun k1 k2 => 2 ≤ k2.timestamp - k1.timestamp)
        (extract_keyframes_scene_detection ⟨25, 10⟩ 1 [[0], [255], [0], [255]]) := by
  rw [scenario_alternating 0 255 (by decide)]
  intro h
  have h12 := (List.chain'_cons.mp h).1
  norm_num at h12

/-- Claim C5 (amended): the engine performs no deduplication — it
computes no perceptual hash and never compares a candidate with the
already-accepted keyframes. In the alternating one-pixel sequence it
accepts frames 1, 2 and 3, and accepted frames 1 and 3 are the
identical image (so any perceptual hash would give them Hamming
distance 0). -/
theorem c5_no_dedup (a b : Fin 256) (hab : a ≠ b) :
    (extract_keyframes_scene_detection ⟨25, 10⟩ 1 [[a], [b], [a], [b]]).map
        KF.frame_number = [1, 2, 3]
      ∧ ([[a], [b], [a], [b]] : List Gray)[1]? = ([[a], [b], [a], [b]] : List Gray)[3]? := by
  refine ⟨?_, rfl⟩
  rw [scenario_alternating a b hab]
  rfl

theorem c5_witness :
    (7 : Fin 256) ≠ 200
      ∧ ((extract_keyframes_scene_detection ⟨25, 10⟩ 1 [[7], [200], [7], [200]]).map
            KF.frame_number = [1, 2, 3]
          ∧ ([[7], [200], [7], [200]] : List Gray)[1]?
              = ([[7], [200], [7], [200]] : List Gray)[3]?) :=
  ⟨by decide, c5_no_dedup 7 200 (by decide)⟩

/-- Claim C5 counterexample: the engine accepts keyframes 1 and 3 of
`[[0],[255],[0],[255]]`; their source frames (`frames[1]` and
`frames[3]`) are the identical image `[255]`, whose perceptual hashes
under any hash function are equal — Hamming distance 0, below any
positive dedup threshold. Both were accepted: no dedup happened. -/
theorem c5_counterexample :
    (extract_keyframes_scene_detection ⟨25, 10⟩ 1 [[0], [255], [0], [255]]).map
        KF.frame_number = [1, 2, 3]
      ∧ ([[0], [255], [0], [255]] : List Gray)[1]?
          = ([[0], [255], [0], [255]] : List Gray)[3]? := by
  refine ⟨?_, rfl⟩
  rw [scenario_alternating 0 255 (by decide)]
  rfl

/-- Claim C6 (amended): for the 118-second two-scene video (scenes at
0 s and 60 s, 1 fps) with `threshold = 25` and `maxFrames = 10`, the
engine returns exactly one keyframe, at 60 s: the first frame is never
a candidate, so no keyframe marks the scene starting at 0 s (and the
engine accepts no `minIntervalSeconds` parameter). -/
theorem c6_two_scene_scenario (a b : Fin 256) (hab : a ≠ b) :
    extract_keyframes_scene_detection ⟨25, 10⟩ 1
        (List.replicate 60 [a] ++ List.replicate 58 [b])
      = [⟨60, 60, 10039 / 100⟩] :=
  scenario_two_scenes a b hab

theorem c6_witness :
    (3 : Fin 256) ≠ 77
      ∧ extract_keyframes_scene_detection ⟨25, 10⟩ 1
          (List.replicate 60 [3] ++ List.replicate 58 [77])
        = [⟨60, 60, 10039 / 100⟩] :=
  ⟨by decide, c6_two_scene_scenario 3 77 (by decide)⟩

/-- Claim C6 counterexample: the claimed output (exactly 2 keyframes,
at ≈0 s and ≈60 s) is wrong — the run returns 1 keyframe. -/
theorem c6_counterexample :
    (extract_keyframes_scene_detection ⟨25, 10⟩ 1
        (List.replicate 60 [0] ++ List.replicate 58 [255])).length ≠ 2 := by
  rw [scenario_two_scenes 0 255 (by decide)]
  simp

/-- Claim C7: for every input frame sequence, regardless of length, and
every configuration, the engine returns at most `max_frames`
keyframes. -/
theorem c7_max_frames_bound (cfg : EngineConfig) (fps : ℝ) (frames : List Gray) :
    (extract_keyframes_scene_detection cfg fps frames).length ≤ cfg.max_frames := by
  have h := extractLoop_length_le cfg fps frames none 0 0 []
  simpa using h

theorem extractLoop_const_hist (cfg : EngineConfig) (fps : ℝ)
    (hthr : 0 ≤ cfg.threshold) (h : Fin 256 → ℕ) :
    ∀ (frames : List Gray) (prev : Option Gray) (fc kc : ℕ) (acc : List KF),
      (∀ g ∈ frames, calcHist g = h) →
      (∀ p, prev = some p → calcHist p = h) →
      extractLoop cfg fps frames prev fc kc acc = acc := by
  intro frames
  induction frames with
  | nil => intro prev fc kc acc _ _; exact extractLoop_nil ..
  | cons g rest ih =>
    intro prev fc kc acc hf hp
    have hg : calcHist g = h := hf g (List.mem_cons_self _ _)
    have hrest : ∀ x ∈ rest, calcHist x = h := fun x hx => hf x (List.mem_cons_of_mem _ hx)
    have hnext : ∀ p, some g = some p → calcHist p = h := by
      rintro p hp'
      exact (Option.some.inj hp') ▸ hg
    cases prev with
    | none =>
      rw [extractLoop_cons_none]
      exact ih (some g) _ _ _ hrest hnext
    | some p =>
      have hscore : sceneChangeScore p g = 0 :=
        sceneChangeScore_eq_hist ((hp p rfl).trans hg.symm)
      simp only [extractLoop]
      rw [if_neg]
      · exact ih (some g) _ _ _ hrest hnext
      · rintro ⟨hgt, -⟩
        rw [hscore] at hgt
        exact absurd hthr (not_le.mpr hgt)

/-- Claim C8: with a positive configuration, a frame sequence with no
luminance variation (all frames have identical luminance histograms)
yields zero keyframes, and a single-frame input yields zero keyframes
(no comparison baseline); this is a normal return value, not an
error. -/
theorem c8_no_variation (cfg : EngineConfig) (fps : ℝ) (hthr : 0 < cfg.threshold) :
    (∀ frames : List Gray,
        (∀ f ∈ frames, ∀ g ∈ frames, calcHist f = calcHist g) →
        extract_keyframes_scene_detection cfg fps frames = [])
      ∧ ∀ f : Gray, extract_keyframes_scene_detection cfg fps [f] = [] := by
  constructor
  · intro frames hconst
    cases frames with
    | nil =>
      unfold extract_keyframes_scene_detection
      exact extractLoop_nil ..
    | cons f rest =>
      unfold extract_keyframes_scene_detection
      refine extractLoop_const_hist cfg fps hthr.le (calcHist f) _ _ _ _ _ ?_ ?_
      · intro g hg
        exact hconst g hg f (List.mem_cons_self _ _)
      · intro p hp
        cases hp
  · intro f
    unfold extract_keyframes_scene_detection
    rw [extractLoop_cons_none, extractLoop_nil]

theorem c8_witness :
    (0 : ℝ) < (⟨25, 10⟩ : EngineConfig).threshold
      ∧ extract_keyframes_scene_detection ⟨25, 10⟩ 1 [[4], [4], [4]] = []
      ∧ extract_keyframes_scene_detection ⟨25, 10⟩ 1 [[9]] = [] :=
  ⟨by norm_num,
   (c8_no_variation ⟨25, 10⟩ 1 (by norm_num)).1 [[4], [4], [4]]
     (by
       intro f hf g hg
       simp only [List.mem_cons, List.not_mem_nil, or_false] at hf hg
       rcases hf with rfl | rfl | rfl <;> rcases hg with rfl | rfl | rfl <;> rfl),
   (c8_no_variation ⟨25, 10⟩ 1 (by norm_num)).2 [9]⟩

/-! ### Pipeline data model (models.py / main.py) -/

/-- The `status` column of the `videos` table. -/
inductive Status
  | pending
  | processing
  | completed
  | failed
deriving DecidableEq

/-- One row of the `videos` table (the columns the pipeline reads or
writes; `id` is carried as the key next to the row). -/
structure VideoRec where
  filename : String
  status : Status
  duration_seconds : Option ℤ := none
deriving DecidableEq

/-- One Whisper segment: `{"start": ..., "end": ..., "text": ...}`
(`stop` stands for the `end` key). -/
structure Seg where
  start : ℚ
  stop : ℚ
  text : String
deriving DecidableEq

/-- The dict `transcribe_audio` returns: `{"full_text", "segments"}`. -/
structure TranscriptResult where
  full_text : String
  segments : List Seg
deriving DecidableEq

/-- One row of the `transcripts` table. -/
structure TranscriptRec where
  video_id : ℕ
  full_text : String
  segments : List Seg
deriving DecidableEq

/-- One row of the `keyframes` table (`timestamp` is stored as
`int(kf["timestamp"])`). -/
structure KeyframeRec where
  video_id : ℕ
  timestamp : ℤ
  frame_number : ℕ
  s3_url : String
  visual_description : String
deriving DecidableEq

/-- The JSON payload `analyze_full_flow` returns (opaque here). -/
abbrev AnalysisOut := String

/-- One row of the `analyses` table (holding the `output_format`
payload; the `summary`/`modules`/`flows`/`issues` columns are
projections of the same payload). -/
structure AnalysisRec where
  video_id : ℕ
  output_format : AnalysisOut
deriving DecidableEq

/-- The database state the pipeline touches. `records` is the `videos`
table as an association list keyed by autoincrement id (`nextId`). -/
structure DB where
  nextId : ℕ
  records : List (ℕ × VideoRec)
  transcripts : List TranscriptRec
  keyframes : List KeyframeRec
  analyses : List AnalysisRec
deriving DecidableEq

/-- `db.query(Video).filter(Video.id == i).first()`. -/
def lookupRec : List (ℕ × VideoRec) → ℕ → Option VideoRec
  | [], _ => none
  | p :: rest, i => if p.1 = i then some p.2 else lookupRec rest i

def DB.queryVideo (db : DB) (i : ℕ) : Option VideoRec :=
  lookupRec db.records i

/-- Mutating the row with id `i` in place (the ORM row update). -/
def updateRec (l : List (ℕ × VideoRec)) (i : ℕ) (f : VideoRec → VideoRec) :
    List (ℕ × VideoRec) :=
  l.map fun p => if p.1 = i then (p.1, f p.2) else p

/-- The log level of a `logger` call in main.py. -/
inductive Level
  | INFO
  | ERROR
deriving DecidableEq

/-- The messages main.py's own logger emits during
`process_video_async`, one constructor per format string (module-level
info logs of video_processor.py / ai_analyzer.py are outside the
model):
`"Inizio processing video {video_id}"`,
`"Errore Vision frame {idx}: {e}"`,
`"Errore processing {video_id}: {e}"`,
`"Processing completato per video {video_id}"`. -/
inductive Msg
  | inizioProcessing (video_id : ℕ)
  | erroreVision (frame_idx : ℕ) (detail : String)
  | erroreProcessing (video_id : ℕ) (detail : String)
  | processingCompletato (video_id : ℕ)
deriving DecidableEq

structure LogEntry where
  level : Level
  msg : Msg
deriving DecidableEq

/-- The environment of one `process_video_async` run: the decoded video
(frames and frame rate, as read by `VideoProcessor`) and the outcome of
each external call (ffmpeg audio extraction, Whisper transcription, the
per-frame Vision call and S3 upload, and the GPT synthesis call).
`Except.error e` models the call raising an exception with detail
`e`. -/
structure Env where
  fps : ℝ
  frames : List Gray
  extract_audio : Except String Unit
  transcribe_audio : Except String TranscriptResult
  describe_frame : ℕ → Except String String
  upload_keyframe : ℕ → Except String String
  analyze_full_flow : Except String AnalysisOut

/-- Python `int(x)`: truncation toward zero. -/
noncomputable def pyInt (x : ℝ) : ℤ := if 0 ≤ x then ⌊x⌋ else -⌊-x⌋

/-- The per-keyframe loop of `process_video_async` (step 3): for each
`(idx, kf)` of `enumerate(keyframes_list)`, inside `try`: Vision
description, S3 upload, `Keyframe` row insert and commit, and append to
`keyframes_with_descriptions`; `except`: log
`"Errore Vision frame {idx}: {e}"` and continue with the next frame. -/
noncomputable def runKeyframeLoop (env : Env) (video_id : ℕ) :
    List (ℕ × KF) → DB → List LogEntry → List (ℝ × String) →
      DB × List LogEntry × List (ℝ × String)
  | [], db, log, kwd => (db, log, kwd)
  | (idx, kf) :: rest, db, log, kwd =>
    match env.describe_frame idx with
    | .error e =>
        runKeyframeLoop env video_id rest db
          (log ++ [⟨.ERROR, .erroreVision idx e⟩]) kwd
    | .ok description =>
      match env.upload_keyframe idx with
      | .error e =>
          runKeyframeLoop env video_id rest db
            (log ++ [⟨.ERROR, .erroreVision idx e⟩]) kwd
      | .ok s3_url =>
          runKeyframeLoop env video_id rest
            { db with keyframes := db.keyframes ++
                [{ video_id := video_id, timestamp := pyInt kf.timestamp,
                   frame_number := kf.frame_number, s3_url := s3_url,
                   visual_description := description }] }
            log (kwd ++ [(kf.timestamp, description)])

/-- The `try` body of `process_video_async`: audio extraction,
transcription (transcript committed), keyframe extraction (with
`threshold=25.0, max_frames=10`), the per-keyframe Vision loop, the
full synthesis, then — in one commit — the `Analysis` insert plus the
record update to `completed` with the duration. Returns the committed
database, the log so far, and the exception if one was raised
(uncommitted session adds are discarded, so when the record is missing
the pending `Analysis` insert is lost with the `AttributeError`). -/
noncomputable def processBody (env : Env) (video_id : ℕ) (db : DB) :
    DB × List LogEntry × Option String :=
  let log0 : List LogEntry := [⟨.INFO, .inizioProcessing video_id⟩]
  match env.extract_audio with
  | .error e => (db, log0, some e)
  | .ok _ =>
    match env.transcribe_audio with
    | .error e => (db, log0, some e)
    | .ok tr =>
      let db1 := { db with transcripts := db.transcripts ++
        [{ video_id := video_id, full_text := tr.full_text,
           segments := tr.segments }] }
      let kfs := extract_keyframes_scene_detection ⟨25, 10⟩ env.fps env.frames
      match runKeyframeLoop env video_id kfs.enum db1 log0 [] with
      | (db2, log2, _kwd) =>
        match env.analyze_full_flow with
        | .error e => (db2, log2, some e)
        | .ok analysis =>
          match db2.queryVideo video_id with
          | none => (db2, log2, some "AttributeError")
          | some _ =>
            ({ db2 with
                analyses := db2.analyses ++
                  [{ video_id := video_id, output_format := analysis }],
                records := updateRec db2.records video_id (fun w =>
                  { w with status := .completed,
                           duration_seconds :=
                             some (pyInt ((env.frames.length : ℝ) / env.fps)) }) },
              log2 ++ [⟨.INFO, .processingCompletato video_id⟩], none)

/-- The observable outcome of one `process_video_async` task:
the database, the emitted log, whether the `finally` cleanup removed
the temporary directory, and the exception escaping the task, when
any does. -/
structure RunResult where
  db : DB
  log : List LogEntry
  temp_dir_removed : Bool
  uncaught : Option String

/-- `process_video_async(video_id, video_path, temp_dir)`: runs the
body; on an exception, logs `"Errore processing {video_id}: {e}"`,
looks the record up and sets its status to `failed` (when the record is
missing this lookup yields `None` and the attribute assignment raises
`AttributeError` out of the handler); the `finally` block always
removes the temporary directory. -/
noncomputable def process_video_async (env : Env) (video_id : ℕ) (db : DB) :
    RunResult :=
  match processBody env video_id db with
  | (db1, log1, none) => ⟨db1, log1, true, none⟩
  | (db1, log1, some e) =>
    let log2 := log1 ++ [⟨.ERROR, .erroreProcessing video_id e⟩]
    match db1.queryVideo video_id with
    | some _ =>
        let failed := updateRec db1.records video_id (fun w => { w with status := .failed })
        ⟨{ db1 with records := failed }, log2, true, none⟩
    | none => ⟨db1, log2, true, some "AttributeError"⟩

/-- The JSON body the `/upload` endpoint returns:
`{"video_id": ..., "status": "processing", "message": ...}`. -/
structure UploadResponse where
  video_id : ℕ
  status : Status
deriving DecidableEq

/-- A task handed to FastAPI's `BackgroundTasks`. -/
inductive BackgroundTask
  | processVideo (video_id : ℕ)
deriving DecidableEq

/-- The `/upload` endpoint: saves the file, inserts a `Video` row with
`status="processing"` and commits (the `filename` column is UNIQUE, so
a duplicate filename makes the commit raise and the endpoint fail with
no new row and no task — modelled as a `none` response), then
schedules `process_video_async` if a `BackgroundTasks` instance was
provided (its default is `None`). Returns the new row id with status
`"processing"`. -/
def upload_video (db : DB) (filename : String) (has_background_tasks : Bool) :
    DB × Option UploadResponse × List BackgroundTask :=
  if db.records.any fun p => p.2.filename == filename then
    (db, none, [])
  else
    let video_id := db.nextId
    let db1 := { db with
      nextId := video_id + 1,
      records := db.records ++
        [(video_id, { filename := filename, status := .processing })] }
    (db1, some ⟨video_id, .processing⟩,
      if has_background_tasks then [.processVideo video_id] else [])

/-! ### Pipeline helper lemmas -/

theorem lookupRec_updateRec :
    ∀ (l : List (ℕ × VideoRec)) (i : ℕ) (f : VideoRec → VideoRec),
      lookupRec (updateRec l i f) i = (lookupRec l i).map f := by
  intro l
  induction l with
  | nil => intro i f; rfl
  | cons p rest ih =>
    intro i f
    by_cases h : p.1 = i
    · have hu : updateRec (p :: rest) i f = (p.1, f p.2) :: updateRec rest i f := by
        simp [updateRec, h]
      rw [hu]
      simp [lookupRec, h]
    · have hu : updateRec (p :: rest) i f = p :: updateRec rest i f := by
        simp [updateRec, h]
      rw [hu]
      simp only [lookupRec]
      rw [if_neg h, if_neg h]
      exact ih i f

theorem queryVideo_update_status (db : DB) (i : ℕ) (f : VideoRec → VideoRec)
    (v : VideoRec) (hv : db.queryVideo i = some v) :
    lookupRec (updateRec db.records i f) i = some (f v) := by
  rw [lookupRec_updateRec]
  simp only [DB.queryVideo] at hv
  rw [hv]
  rfl

theorem runKeyframeLoop_records (env : Env) (vid : ℕ) :
    ∀ (l : List (ℕ × KF)) (db : DB) (log : List LogEntry) (kwd : List (ℝ × String)),
      ((runKeyframeLoop env vid l db log kwd).1).records = db.records := by
  intro l
  induction l with
  | nil => intro db log kwd; rfl
  | cons hd rest ih =>
    intro db log kwd
    obtain ⟨idx, kf⟩ := hd
    simp only [runKeyframeLoop]
    cases hdesc : env.describe_frame idx with
    | error e => exact ih _ _ _
    | ok d =>
      cases hup : env.upload_keyframe idx with
      | error e => exact ih _ _ _
      | ok u => rw [ih]

theorem runKeyframeLoop_log_mem (env : Env) (vid : ℕ) :
    ∀ (l : List (ℕ × KF)) (db : DB) (log : List LogEntry)
      (kwd : List (ℝ × String)) (x : LogEntry),
      x ∈ log → x ∈ (runKeyframeLoop env vid l db log kwd).2.1 := by
  intro l
  induction l with
  | nil => intro db log kwd x hx; exact hx
  | cons hd rest ih =>
    intro db log kwd x hx
    obtain ⟨idx, kf⟩ := hd
    simp only [runKeyframeLoop]
    cases hdesc : env.describe_frame idx with
    | error e => exact ih _ _ _ _ (List.mem_append_left _ hx)
    | ok d =>
      cases hup : env.upload_keyframe idx with
      | error e => exact ih _ _ _ _ (List.mem_append_left _ hx)
      | ok u => exact ih _ _ _ _ hx

theorem runKeyframeLoop_error_logged (env : Env) (vid : ℕ) :
    ∀ (l : List (ℕ × KF)) (db : DB) (log : List LogEntry)
      (kwd : List (ℝ × String)) (idx : ℕ) (kf : KF) (e : String),
      (idx, kf) ∈ l → env.describe_frame idx = .error e →
      (⟨.ERROR, .erroreVision idx e⟩ : LogEntry)
        ∈ (runKeyframeLoop env vid l db log kwd).2.1 := by
  intro l
  induction l with
  | nil => intro db log kwd idx kf e hmem _; exact absurd hmem (List.not_mem_nil _)
  | cons hd rest ih =>
    intro db log kwd idx kf e hmem hdesc
    obtain ⟨j, kg⟩ := hd
    rcases List.mem_cons.mp hmem with heq | hmem'
    · have hj : j = idx := by
        have h1 := congrArg Prod.fst heq
        simpa using h1.symm
      subst hj
      simp only [runKeyframeLoop, hdesc]
      exact runKeyframeLoop_log_mem env vid rest _ _ _ _
        (List.mem_append_right _ (List.mem_singleton.mpr rfl))
    · simp only [runKeyframeLoop]
      cases hd2 : env.describe_frame j with
      | error e2 => exact ih _ _ _ _ _ _ hmem' hdesc
      | ok d =>
        cases hup : env.upload_keyframe j with
        | error e2 => exact ih _ _ _ _ _ _ hmem' hdesc
        | ok u => exact ih _ _ _ _ _ _ hmem' hdesc

/-- Claim C10: whenever the record exists, a `process_video_async` run
ends with the record in a terminal status — `completed` on success,
`failed` whenever any stage raises — no exception escapes the task, and
the `finally` block removes the temporary working directory in both
cases. The record is never left in `processing`. -/
theorem c10_terminal_status (env : Env) (video_id : ℕ) (db : DB)
    (hrec : (db.queryVideo video_id).isSome = true) :
    (process_video_async env video_id db).temp_dir_removed = true
      ∧ (process_video_async env video_id db).uncaught = none
      ∧ (((process_video_async env video_id db).db.queryVideo video_id).map
            VideoRec.status = some Status.completed
        ∨ ((process_video_async env video_id db).db.queryVideo video_id).map
            VideoRec.status = some Status.failed) := by
  obtain ⟨v, hv⟩ := Option.isSome_iff_exists.mp hrec
  have hv' : lookupRec db.records video_id = some v := hv
  cases haudio : env.extract_audio with
  | error e =>
    refine ⟨?_, ?_, Or.inr ?_⟩ <;>
      simp only [process_video_async, processBody, haudio, hv]
    have hq := queryVideo_update_status db video_id
      (fun w => { w with status := Status.failed }) v hv
    simp only [DB.queryVideo]
    rw [hq]
    rfl
  | ok u =>
    cases htr : env.transcribe_audio with
    | error e =>
      refine ⟨?_, ?_, Or.inr ?_⟩ <;>
        simp only [process_video_async, processBody, haudio, htr, hv]
      have hq := queryVideo_update_status db video_id
        (fun w => { w with status := Status.failed }) v hv
      simp only [DB.queryVideo]
      rw [hq]
      rfl
    | ok tr =>
      rcases hloop : runKeyframeLoop env video_id
          (extract_keyframes_scene_detection ⟨25, 10⟩ env.fps env.frames).enum
          { db with transcripts := db.transcripts ++
            [{ video_id := video_id, full_text := tr.full_text,
               segments := tr.segments }] }
          [⟨.INFO, .inizioProcessing video_id⟩] [] with ⟨db2, log2, kwd⟩
      have hrecords2 : db2.records = db.records := by
        have h := runKeyframeLoop_records env video_id
          (extract_keyframes_scene_detection ⟨25, 10⟩ env.fps env.frames).enum
          { db with transcripts := db.transcripts ++
            [{ video_id := video_id, full_text := tr.full_text,
               segments := tr.segments }] }
          [⟨.INFO, .inizioProcessing video_id⟩] []
        rw [hloop] at h
        exact h
      have hq2 : db2.queryVideo video_id = some v := by
        simp only [DB.queryVideo, hrecords2]
        exact hv'
      cases han : env.analyze_full_flow with
      | error e =>
        refine ⟨?_, ?_, Or.inr ?_⟩ <;>
          simp only [process_video_async, processBody, haudio, htr, hloop, han, hq2]
        have hq := queryVideo_update_status db2 video_id
          (fun w => { w with status := Status.failed }) v hq2
        simp only [DB.queryVideo]
        rw [hq]
        rfl
      | ok an =>
        refine ⟨?_, ?_, Or.inl ?_⟩ <;>
          simp only [process_video_async, processBody, haudio, htr, hloop, han, hq2]
        have hq := queryVideo_update_status db2 video_id
          (fun w =>
            { w with status := Status.completed,
                     duration_seconds :=
                       some (pyInt ((env.frames.length : ℝ) / env.fps)) }) v hq2
        simp only [DB.queryVideo]
        rw [hq]
        rfl

theorem c10_witness :
    ((DB.queryVideo ⟨2, [(1, ⟨"demo.mp4", Status.processing, none⟩)], [], [], []⟩ 1).isSome
        = true)
      ∧ ((process_video_async
            ⟨1, [], .ok (), .error "whisper down", fun _ => .ok "", fun _ => .ok "",
              .ok "report"⟩ 1
            ⟨2, [(1, ⟨"demo.mp4", Status.processing, none⟩)], [], [], []⟩).temp_dir_removed
          = true
        ∧ (process_video_async
            ⟨1, [], .ok (), .error "whisper down", fun _ => .ok "", fun _ => .ok "",
              .ok "report"⟩ 1
            ⟨2, [(1, ⟨"demo.mp4", Status.processing, none⟩)], [], [], []⟩).uncaught = none
        ∧ (((process_video_async
              ⟨1, [], .ok (), .error "whisper down", fun _ => .ok "", fun _ => .ok "",
                .ok "report"⟩ 1
              ⟨2, [(1, ⟨"demo.mp4", Status.processing, none⟩)], [], [], []⟩).db.queryVideo
                1).map VideoRec.status = some Status.completed
          ∨ ((process_video_async
              ⟨1, [], .ok (), .error "whisper down", fun _ => .ok "", fun _ => .ok "",
                .ok "report"⟩ 1
              ⟨2, [(1, ⟨"demo.mp4", Status.processing, none⟩)], [], [], []⟩).db.queryVideo
                1).map VideoRec.status = some Status.failed)) :=
  ⟨rfl, c10_terminal_status _ 1 _ rfl⟩

/-! ### Stage failure handling (claims C2, C3) -/

/-- Claim C3 (amended): when the transcription stage raises, the run
logs one ERROR entry carrying the video id and the failure detail (the
handler's message `"Errore processing {video_id}: {e}"` — it does not
name the failing stage), sets the record's status to `failed`, runs no
subsequent stage, creates no `Analysis` row and no `Keyframe` row, and
rolls back nothing: transcripts, keyframes and analyses committed
before the run are all retained unchanged. -/
theorem c3_transcription_failure (env : Env) (video_id : ℕ) (db : DB)
    (e : String) (v : VideoRec)
    (hrec : db.queryVideo video_id = some v)
    (haudio : env.extract_audio = .ok ())
    (htr : env.transcribe_audio = .error e) :
    (process_video_async env video_id db).log
        = [⟨.INFO, .inizioProcessing video_id⟩,
           ⟨.ERROR, .erroreProcessing video_id e⟩]
      ∧ (process_video_async env video_id db).db.queryVideo video_id
          = some { v with status := Status.failed }
      ∧ (process_video_async env video_id db).db.records
          = updateRec db.records video_id (fun w => { w with status := Status.failed })
      ∧ (process_video_async env video_id db).db.transcripts = db.transcripts
      ∧ (process_video_async env video_id db).db.keyframes = db.keyframes
      ∧ (process_video_async env video_id db).db.analyses = db.analyses := by
  have hq := queryVideo_update_status db video_id
    (fun w => { w with status := Status.failed }) v hrec
  refine ⟨?_, ?_, ?_, ?_, ?_, ?_⟩ <;>
    simp only [process_video_async, processBody, haudio, htr, hrec] <;>
    try rfl
  simp only [DB.queryVideo]
  rw [hq]

/-- A run whose transcription call fails. -/
noncomputable def envC3a : Env :=
  ⟨1, [], .ok (), .error "boom", fun _ => .ok "", fun _ => .ok "", .ok "x"⟩

/-- A run whose transcription succeeds and whose synthesis call fails
with the same exception detail. -/
noncomputable def envC3b : Env :=
  ⟨1, [], .ok (), .ok ⟨"txt", []⟩, fun _ => .ok "", fun _ => .ok "", .error "boom"⟩

def dbC3 : DB := ⟨2, [(1, ⟨"demo.mp4", Status.processing, none⟩)], [], [], []⟩

/-- Claim C3 counterexample: a run failing in the transcription stage
and a run failing in the synthesis stage emit the very same log —
the single ERROR entry is `"Errore processing {video_id}: {e}"`, which
carries the failure detail but cannot name the failing stage. -/
theorem c3_counterexample :
    (process_video_async envC3a 1 dbC3).log = (process_video_async envC3b 1 dbC3).log
      ∧ (process_video_async envC3a 1 dbC3).log
          = [⟨.INFO, .inizioProcessing 1⟩, ⟨.ERROR, .erroreProcessing 1 "boom"⟩]
      ∧ envC3a.transcribe_audio = .error "boom"
      ∧ envC3b.transcribe_audio = .ok ⟨"txt", []⟩
      ∧ envC3b.analyze_full_flow = .error "boom" :=
  ⟨rfl, rfl, rfl, rfl, rfl⟩

/-- The environment of the C3 witness run: transcription fails after a
successful audio extraction, against a database already holding
artifacts of other videos. -/
noncomputable def envC3w : Env :=
  ⟨1, [], .ok (), .error "whisper timeout", fun _ => .ok "", fun _ => .ok "", .ok "x"⟩

def dbC3w : DB :=
  ⟨5, [(4, ⟨"a.mp4", Status.processing, none⟩)],
   [⟨3, "old transcript", []⟩], [⟨3, 7, 7, "u", "d"⟩], [⟨3, "old analysis"⟩]⟩

theorem c3_witness :
    dbC3w.queryVideo 4 = some ⟨"a.mp4", Status.processing, none⟩
      ∧ envC3w.extract_audio = .ok ()
      ∧ envC3w.transcribe_audio = .error "whisper timeout"
      ∧ ((process_video_async envC3w 4 dbC3w).log
            = [⟨.INFO, .inizioProcessing 4⟩,
               ⟨.ERROR, .erroreProcessing 4 "whisper timeout"⟩]
        ∧ (process_video_async envC3w 4 dbC3w).db.queryVideo 4
            = some { filename := "a.mp4", status := Status.failed,
                     duration_seconds := none }
        ∧ (process_video_async envC3w 4 dbC3w).db.records
            = updateRec dbC3w.records 4 (fun w => { w with status := Status.failed })
        ∧ (process_video_async envC3w 4 dbC3w).db.transcripts = dbC3w.transcripts
        ∧ (process_video_async envC3w 4 dbC3w).db.keyframes = dbC3w.keyframes
        ∧ (process_video_async envC3w 4 dbC3w).db.analyses = dbC3w.analyses) :=
  ⟨rfl, rfl, rfl,
   c3_transcription_failure envC3w 4 dbC3w "whisper timeout"
     ⟨"a.mp4", Status.processing, none⟩ rfl rfl rfl⟩

/-- Claim C2 (amended): a Vision failure on a single frame does not
terminate the run: the per-frame `try`/`except` logs it as an ERROR
with its cause (`"Errore Vision frame {idx}: {e}"`), skips that frame,
and the run still reaches `completed` when the remaining stages
succeed. (Audio-extraction, transcription and synthesis failures do
terminate the run as `failed` — see the C3 and C10 results.) -/
theorem c2_vision_failure_not_fatal (env : Env) (video_id : ℕ) (db : DB)
    (tr : TranscriptResult) (an : AnalysisOut) (v : VideoRec)
    (idx : ℕ) (kf : KF) (e : String)
    (hrec : db.queryVideo video_id = some v)
    (haudio : env.extract_audio = .ok ())
    (htr : env.transcribe_audio = .ok tr)
    (han : env.analyze_full_flow = .ok an)
    (hmem : (idx, kf)
      ∈ (extract_keyframes_scene_detection ⟨25, 10⟩ env.fps env.frames).enum)
    (hdesc : env.describe_frame idx = .error e) :
    ((process_video_async env video_id db).db.queryVideo video_id).map
        VideoRec.status = some Status.completed
      ∧ (⟨.ERROR, .erroreVision idx e⟩ : LogEntry)
          ∈ (process_video_async env video_id db).log := by
  have hv' : lookupRec db.records video_id = some v := hrec
  rcases hloop : runKeyframeLoop env video_id
      (extract_keyframes_scene_detection ⟨25, 10⟩ env.fps env.frames).enum
      { db with transcripts := db.transcripts ++
        [{ video_id := video_id, full_text := tr.full_text,
           segments := tr.segments }] }
      [⟨.INFO, .inizioProcessing video_id⟩] [] with ⟨db2, log2, kwd⟩
  have hrecords2 : db2.records = db.records := by
    have h := runKeyframeLoop_records env video_id
      (extract_keyframes_scene_detection ⟨25, 10⟩ env.fps env.frames).enum
      { db with transcripts := db.transcripts ++
        [{ video_id := video_id, full_text := tr.full_text,
           segments := tr.segments }] }
      [⟨.INFO, .inizioProcessing video_id⟩] []
    rw [hloop] at h
    exact h
  have hq2 : db2.queryVideo video_id = some v := by
    simp only [DB.queryVideo, hrecords2]
    exact hv'
  have hlog2 : (⟨.ERROR, .erroreVision idx e⟩ : LogEntry) ∈ log2 := by
    have h := runKeyframeLoop_error_logged env video_id
      (extract_keyframes_scene_detection ⟨25, 10⟩ env.fps env.frames).enum
      { db with transcripts := db.transcripts ++
        [{ video_id := video_id, full_text := tr.full_text,
           segments := tr.segments }] }
      [⟨.INFO, .inizioProcessing video_id⟩] [] idx kf e hmem hdesc
    rw [hloop] at h
    exact h
  constructor
  · simp only [process_video_async, processBody, haudio, htr, hloop, han, hq2]
    have hq := queryVideo_update_status db2 video_id
      (fun w =>
        { w with status := Status.completed,
                 duration_seconds :=
                   some (pyInt ((env.frames.length : ℝ) / env.fps)) }) v hq2
    simp only [DB.queryVideo]
    rw [hq]
    rfl
  · simp only [process_video_async, processBody, haudio, htr, hloop, han, hq2]
    exact List.mem_append_left _ hlog2

/-- The environment of a run over the two-scene 118-frame video whose
single Vision call fails while every other capability succeeds. -/
noncomputable def envC2 : Env :=
  ⟨1, List.replicate 60 [0] ++ List.replicate 58 [255],
   .ok (), .ok ⟨"trascrizione", []⟩,
   fun _ => .error "vision unavailable", fun _ => .ok "https://s3/url",
   .ok "report"⟩

def dbC2 : DB := ⟨2, [(1, ⟨"demo.mp4", Status.processing, none⟩)], [], [], []⟩

/-- Claim C2 counterexample: the Vision capability call for keyframe 0
fails during the run (the ERROR entry in the log attests the failed
invocation), yet the run ends `completed`: the per-frame handler
swallows the capability failure instead of raising a stage error. -/
theorem c2_counterexample :
    ((process_video_async envC2 1 dbC2).db.queryVideo 1).map VideoRec.status
        = some Status.completed
      ∧ (process_video_async envC2 1 dbC2).log
          = [⟨.INFO, .inizioProcessing 1⟩,
             ⟨.ERROR, .erroreVision 0 "vision unavailable"⟩,
             ⟨.INFO, .processingCompletato 1⟩]
      ∧ envC2.describe_frame 0 = .error "vision unavailable" := by
  have hkfs : extract_keyframes_scene_detection ⟨25, 10⟩ (1 : ℝ)
      (List.replicate 60 [(0 : Fin 256)] ++ List.replicate 58 [255])
      = [⟨60, 60, 10039 / 100⟩] := scenario_two_scenes 0 255 (by decide)
  refine ⟨?_, ?_, rfl⟩
  · simp only [process_video_async, processBody, envC2, dbC2]
    rw [hkfs]
    rfl
  · simp only [process_video_async, processBody, envC2, dbC2]
    rw [hkfs]
    rfl

theorem c2_witness :
    dbC2.queryVideo 1 = some ⟨"demo.mp4", Status.processing, none⟩
      ∧ envC2.extract_audio = .ok ()
      ∧ envC2.describe_frame 0 = .error "vision unavailable"
      ∧ (((process_video_async envC2 1 dbC2).db.queryVideo 1).map VideoRec.status
            = some Status.completed
        ∧ (⟨Level.ERROR, Msg.erroreVision 0 "vision unavailable"⟩ : LogEntry)
            ∈ (process_video_async envC2 1 dbC2).log) :=
  ⟨rfl, rfl, rfl,
   c2_vision_failure_not_fatal envC2 1 dbC2 ⟨"trascrizione", []⟩ "report"
     ⟨"demo.mp4", Status.processing, none⟩ 0 ⟨60, 60, 10039 / 100⟩
     "vision unavailable" rfl rfl rfl rfl
     (by
       show (0, (⟨60, 60, 10039 / 100⟩ : KF))
         ∈ (extract_keyframes_scene_detection ⟨25, 10⟩ (1 : ℝ)
             (List.replicate 60 [(0 : Fin 256)] ++ List.replicate 58 [255])).enum
       rw [scenario_two_scenes 0 255 (by decide)]
       exact List.mem_cons_self _ _)
     rfl⟩

/-! ### Upload endpoint (claim C4) -/

theorem lookupRec_append_none (l : List (ℕ × VideoRec)) (i : ℕ) (v : VideoRec)
    (h : lookupRec l i = none) :
    lookupRec (l ++ [(i, v)]) i = some v := by
  induction l with
  | nil => simp [lookupRec]
  | cons p rest ih =>
    simp only [lookupRec] at h ⊢
    by_cases hp : p.1 = i
    · rw [if_pos hp] at h
      exact absurd h (by simp)
    · rw [if_neg hp] at h ⊢
      exact ih h

/-- Claim C4 (amended): every upload with a fresh filename is accepted:
it creates a brand-new record (under the fresh autoincrement id, for
which no record existed) directly in status `processing` — there is no
`pending` phase and no status check — and schedules at most one run for
that id (exactly one when a `BackgroundTasks` instance is present,
none otherwise). At most one run per media id ever exists because each
upload gets a fresh id, not because a second submission would be
rejected: no submit-by-id interface exists. -/
theorem c4_upload_semantics (db : DB) (filename : String) (bt : Bool)
    (hname : (db.records.any fun p => p.2.filename == filename) = false)
    (hid : lookupRec db.records db.nextId = none) :
    (upload_video db filename bt).2.1 = some ⟨db.nextId, Status.processing⟩
      ∧ db.queryVideo db.nextId = none
      ∧ (upload_video db filename bt).1.queryVideo db.nextId
          = some ⟨filename, Status.processing, none⟩
      ∧ (upload_video db filename bt).2.2
          = (if bt then [BackgroundTask.processVideo db.nextId] else []) := by
  refine ⟨?_, hid, ?_, ?_⟩
  · simp only [upload_video, hname, Bool.false_eq_true, if_false]
  · simp only [upload_video, hname, Bool.false_eq_true, if_false, DB.queryVideo]
    exact lookupRec_append_none db.records db.nextId _ hid
  · simp only [upload_video, hname, Bool.false_eq_true, if_false]

def dbC4w : DB := ⟨5, [(2, ⟨"old.mp4", Status.completed, some 10⟩)], [], [], []⟩

theorem c4_witness :
    (dbC4w.records.any fun p => p.2.filename == "new.mp4") = false
      ∧ lookupRec dbC4w.records dbC4w.nextId = none
      ∧ ((upload_video dbC4w "new.mp4" true).2.1 = some ⟨dbC4w.nextId, Status.processing⟩
        ∧ dbC4w.queryVideo dbC4w.nextId = none
        ∧ (upload_video dbC4w "new.mp4" true).1.queryVideo dbC4w.nextId
            = some ⟨"new.mp4", Status.processing, none⟩
        ∧ (upload_video dbC4w "new.mp4" true).2.2
            = (if true then [BackgroundTask.processVideo dbC4w.nextId] else [])) :=
  ⟨by decide, rfl, c4_upload_semantics dbC4w "new.mp4" true (by decide) rfl⟩

/-- Claim C4 counterexample: an upload against an empty database is
accepted — the response is returned and the run is scheduled — yet at
no point does any record in status `pending` exist: the record is
created directly in `processing` (before the call no record existed at
all), and no rejection path based on an existing record's status exists
in the endpoint. -/
theorem c4_counterexample :
    (upload_video ⟨0, [], [], [], []⟩ "demo.mp4" true).2.1
        = some ⟨0, Status.processing⟩
      ∧ (upload_video ⟨0, [], [], [], []⟩ "demo.mp4" true).1.queryVideo 0
          = some ⟨"demo.mp4", Status.processing, none⟩
      ∧ (upload_video ⟨0, [], [], [], []⟩ "demo.mp4" true).2.2
          = [BackgroundTask.processVideo 0]
      ∧ DB.queryVideo ⟨0, [], [], [], []⟩ 0 = none
      ∧ Status.processing ≠ Status.pending :=
  ⟨rfl, rfl, rfl, rfl, by decide⟩

/-! ### Log-stream client reconnect (claim C9, ProgressTerminal.tsx) -/

/-- The component state the reconnect logic reads and writes:
`retryDelay` (initially 2000) and `usingSSE`. -/
structure ClientState where
  retryDelay : ℕ
  usingSSE : Bool
deriving DecidableEq

/-- A request the ProgressTerminal component can issue:
`sseStream id` is `new EventSource(base + "/videos/" + id + "/logs/stream")`,
`logsSnapshot id` is `api.get("/videos/" + id + "/logs")` (the snapshot
fetch; note that neither request carries any sequence-number
parameter — none exists in the component). -/
inductive ClientRequest
  | sseStream (video_id : ℕ)
  | logsSnapshot (video_id : ℕ)
deriving DecidableEq

def ClientRequest.isSnapshot : ClientRequest → Bool
  | .logsSnapshot _ => true
  | .sseStream _ => false

/-- What `setTimeout(() => startSSE(), next)` schedules in `onerror`:
an action to run after `delay_ms` milliseconds. -/
structure ScheduledReconnect where
  delay_ms : ℕ
  request : ClientRequest
deriving DecidableEq

/-- `startSSE()`: opens the SSE stream endpoint, sets `usingSSE` to
`true` and resets `retryDelay` to 2000 — on every attempt, because
`setRetryDelay(2000)` runs right after the `EventSource` constructor,
not upon a successful connection. -/
def startSSE (video_id : ℕ) (s : ClientState) : ClientState × ClientRequest :=
  ({ s with usingSSE := true, retryDelay := 2000 }, .sseStream video_id)

/-- `es.onerror`: closes the stream, sets `usingSSE` to `false`,
computes `next = Math.min(retryDelay * 2, 30000)`, stores it, and
schedules `startSSE` — a plain reopen of the same SSE stream URL —
after `next` ms. No snapshot fetch and no sequence number are
involved. -/
def onError (video_id : ℕ) (s : ClientState) : ClientState × ScheduledReconnect :=
  let next := min (s.retryDelay * 2) 30000
  ({ s with usingSSE := false, retryDelay := next }, ⟨next, .sseStream video_id⟩)

/-- Claim C9 (amended): on a stream error the client schedules a plain
reopen of the SSE stream endpoint — not a snapshot fetch, and with no
sequence number — after `min(2 * retryDelay, 30000)` ms; and because
every connection attempt resets `retryDelay` to 2000 before its error
handler can fire, the reconnect scheduled after any attempt always uses
the constant delay 4000 ms: the backoff never grows. -/
theorem c9_reconnect_behavior (video_id : ℕ) (s : ClientState) :
    (onError video_id (startSSE video_id s).1).2
        = ⟨4000, ClientRequest.sseStream video_id⟩
      ∧ ((onError video_id (startSSE video_id s).1).2.request).isSnapshot = false
      ∧ (onError video_id s).2.delay_ms = min (s.retryDelay * 2) 30000 := by
  refine ⟨?_, rfl, rfl⟩
  simp only [onError, startSSE]
  norm_num

/-- Claim C9 counterexample: from the component's initial state, the
error handler schedules an SSE-stream reopen (not a snapshot request,
and the request type carries no sequence number), and two successive
attempt/error cycles both schedule their reconnect after 4000 ms — the
delay between successive reconnect attempts does not grow. -/
theorem c9_counterexample :
    ((onError 1 (startSSE 1 ⟨2000, false⟩).1).2.request).isSnapshot = false
      ∧ (onError 1 (startSSE 1 ⟨2000, false⟩).1).2.delay_ms = 4000
      ∧ (onError 1
          (startSSE 1 (onError 1 (startSSE 1 ⟨2000, false⟩).1).1).1).2.delay_ms
          = 4000 :=
  ⟨rfl, rfl, rfl⟩
